import Mathlib

/-! The class `firebase::Timestamp`.

A shallow embedding of `Firestore/core/include/firebase/firestore/timestamp.h`.

The header defines the class `Timestamp` (two private fields with default
member initialisers, two inline accessors), six inline comparison operators
and the specialisation `std::hash<firebase::Timestamp>`.  The constructors,
`FromTime` and `ValidateBounds` are only declared in the header; their bodies
live in a translation unit that is not part of the sources at hand, so they
are modelled from the specification and marked as such.

Machine integers are embedded as `Int`.  The comparison operators do no
arithmetic, so their embedding is exact for every `int64_t` / `int32_t`
value; the hash does arithmetic on `int32_t` and narrows `int64_t`, which is
made explicit with `toInt32`.
-/

namespace firebase

/-! ## Machine integer conversions -/

/-- Value of `static_cast<int32_t>(x)`: the two's complement reading of the low
32 bits of `x`. -/
def toInt32 (x : Int) : Int :=
  (x + 2147483648) % 4294967296 - 2147483648

/-- Value of the implicit conversion of a signed integer to a 64 bit
`size_t`: reduction modulo `2^64`. -/
def toSizeT (x : Int) : Nat :=
  (x % 18446744073709551616).toNat

/-! ## The class -/

/-- The class `Timestamp`: `int64_t seconds_ = 0; int32_t nanoseconds_ = 0;`. -/
structure Timestamp where
  seconds_ : Int := 0
  nanoseconds_ : Int := 0
  deriving DecidableEq, Repr

namespace Timestamp

/-- The accessor `int64_t seconds() const`. -/
def seconds (t : Timestamp) : Int :=
  t.seconds_

/-- The accessor `int32_t nanoseconds() const`. -/
def nanoseconds (t : Timestamp) : Int :=
  t.nanoseconds_

end Timestamp

/-! ## Comparison operators (header lines 138-162) -/

/-- The inline `operator<`. -/
def operator_lt (lhs rhs : Timestamp) : Bool :=
  decide (lhs.seconds < rhs.seconds) ||
    (decide (lhs.seconds = rhs.seconds) &&
      decide (lhs.nanoseconds < rhs.nanoseconds))

/-- The inline `operator>`: `rhs < lhs`. -/
def operator_gt (lhs rhs : Timestamp) : Bool :=
  operator_lt rhs lhs

/-- The inline `operator>=`: `!(lhs < rhs)`. -/
def operator_ge (lhs rhs : Timestamp) : Bool :=
  !(operator_lt lhs rhs)

/-- The inline `operator<=`: `!(lhs > rhs)`. -/
def operator_le (lhs rhs : Timestamp) : Bool :=
  !(operator_gt lhs rhs)

/-- The inline `operator!=`: `lhs < rhs || lhs > rhs`. -/
def operator_ne (lhs rhs : Timestamp) : Bool :=
  operator_lt lhs rhs || operator_gt lhs rhs

/-- The inline `operator==`: `!(lhs != rhs)`. -/
def operator_eq (lhs rhs : Timestamp) : Bool :=
  !(operator_ne lhs rhs)

/-! ## `std::hash<firebase::Timestamp>` (header lines 166-181) -/

/-- The lambda `consume` of the hash: `result = prime * result + value` with
`prime = 37`, stored back into the `int32_t` accumulator.  The store is
modelled as reduction into the `int32_t` range (two's complement wraparound).
The function returns the new accumulator. -/
def consume (result value : Int) : Int :=
  let prime : Int := 37
  toInt32 (prime * result + value)

/-- The call operator of `std::hash<firebase::Timestamp>`. -/
def hash (timestamp : Timestamp) : Nat :=
  let result : Int := 1
  let result := consume result (toInt32 timestamp.seconds)
  let result := consume result (toInt32 (timestamp.seconds >>> 32))
  let result := consume result (toInt32 timestamp.nanoseconds)
  toSizeT result

/-- The exact integer value of the expression `prime * result + value` in the
lambda `consume`, before it is stored into the `int32_t` accumulator. -/
def consume_exact (result value : Int) : Int :=
  let prime : Int := 37
  prime * result + value

/-- The exact values of `prime * result + value` at the three calls of
`consume` in the hash, in call order; the accumulator entering each call is
the `int32_t` value stored by the previous one. -/
def hash_exact_steps (timestamp : Timestamp) : List Int :=
  let result0 : Int := 1
  let value1 := toInt32 timestamp.seconds
  let result1 := consume result0 value1
  let value2 := toInt32 (timestamp.seconds >>> 32)
  let result2 := consume result1 value2
  let value3 := toInt32 timestamp.nanoseconds
  [consume_exact result0 value1, consume_exact result1 value2, consume_exact result2 value3]

/-- The range of `int32_t`. -/
def isInt32 (x : Int) : Prop :=
  -2147483648 ≤ x ∧ x ≤ 2147483647

instance (x : Int) : Decidable (isInt32 x) :=
  inferInstanceAs (Decidable (-2147483648 ≤ x ∧ x ≤ 2147483647))

/-! ## Construction (bodies not in the header) -/

/-- The single error kind of construction. -/
inductive Error where
  | RangeViolation
  deriving DecidableEq, Repr

/-- Number of nanoseconds in a second. -/
def kNanosPerSecond : Int := 1000000000

/-- Smallest supported value of `seconds`: 0001-01-01T00:00:00Z. -/
def kMinSeconds : Int := -62135596800

/-- Largest supported value of `seconds`: 9999-12-31T23:59:59Z. -/
def kMaxSeconds : Int := 253402300799

/-- Modelled from the spec: the body of `Timestamp::ValidateBounds` is missing
from the sources (the header only declares it).  The specification requires
`seconds` within [-62135596800, 253402300799] and `nanoseconds` within
[0, 999999999]; a violation of either is a fatal `RangeViolation`. -/
def Timestamp.ValidateBounds (t : Timestamp) : Except Error Unit :=
  if t.nanoseconds_ < 0 ∨ 999999999 < t.nanoseconds_ then
    Except.error Error.RangeViolation
  else if t.seconds_ < kMinSeconds ∨ kMaxSeconds < t.seconds_ then
    Except.error Error.RangeViolation
  else
    Except.ok ()

/-- Modelled from the spec: the body of the default constructor
`Timestamp::Timestamp()` is missing from the sources.  The specification says
it yields the epoch (0, 0) and always succeeds; the fields take the default
member initialisers of the header. -/
def Timestamp.create_default : Timestamp :=
  {}

/-- Modelled from the spec: the body of the two-field constructor
`Timestamp::Timestamp(int64_t, int32_t)` is missing from the sources.  The
specification says it stores both fields unchanged and passes them through
the bounds check, failing with `RangeViolation` when the check fails. -/
def Timestamp.create (seconds nanoseconds : Int) : Except Error Timestamp :=
  let t : Timestamp := { seconds_ := seconds, nanoseconds_ := nanoseconds }
  match t.ValidateBounds with
  | Except.ok _ => Except.ok t
  | Except.error e => Except.error e

/-- Modelled from the spec: the body of `Timestamp::FromTime(time_t)` is
missing from the sources.  The specification says the result has the given
seconds, nanoseconds forced to 0, and the same bounds precondition on
seconds. -/
def Timestamp.FromTime (seconds_since_unix_epoch : Int) : Except Error Timestamp :=
  let t : Timestamp := { seconds_ := seconds_since_unix_epoch, nanoseconds_ := 0 }
  match t.ValidateBounds with
  | Except.ok _ => Except.ok t
  | Except.error e => Except.error e

/-- Modelled from the spec: the body of the constructor from
`std::chrono::time_point<std::chrono::system_clock>` is missing from the
sources.  The time point is given as its exact distance `n` from the epoch in
nanoseconds.  The specification says the input is decomposed into an integral
seconds count by truncation toward zero and a sub-second remainder; when the
remainder is negative, seconds is decremented by 1 and nanoseconds increased
by 1000000000; the result then passes through the bounds check. -/
def Timestamp.FromTimePoint (n : Int) : Except Error Timestamp :=
  let seconds := Int.tdiv n kNanosPerSecond
  let nanoseconds := n - seconds * kNanosPerSecond
  let t : Timestamp :=
    if nanoseconds < 0 then
      { seconds_ := seconds - 1, nanoseconds_ := kNanosPerSecond + nanoseconds }
    else
      { seconds_ := seconds, nanoseconds_ := nanoseconds }
  match t.ValidateBounds with
  | Except.ok _ => Except.ok t
  | Except.error e => Except.error e

/-! ## Helper lemmas -/

theorem operator_lt_iff (A B : Timestamp) :
    operator_lt A B = true ↔
      (A.seconds < B.seconds ∨ (A.seconds = B.seconds ∧ A.nanoseconds < B.nanoseconds)) := by
  simp [operator_lt]

theorem operator_lt_eq_false_iff (A B : Timestamp) :
    operator_lt A B = false ↔
      (B.seconds < A.seconds ∨ (A.seconds = B.seconds ∧ B.nanoseconds ≤ A.nanoseconds)) := by
  rw [← Bool.not_eq_true, operator_lt_iff]
  constructor
  · intro h
    rcases lt_trichotomy A.seconds B.seconds with h1 | h1 | h1
    · exact absurd (Or.inl h1) h
    · right
      refine ⟨h1, ?_⟩
      by_contra h2
      exact h (Or.inr ⟨h1, not_le.mp h2⟩)
    · exact Or.inl h1
  · intro h
    omega

theorem operator_eq_iff_fields (A B : Timestamp) :
    operator_eq A B = true ↔
      (A.seconds = B.seconds ∧ A.nanoseconds = B.nanoseconds) := by
  simp only [operator_eq, operator_ne, operator_gt, Bool.not_eq_true', Bool.or_eq_false_iff,
    operator_lt_eq_false_iff]
  constructor
  · intro h
    omega
  · intro h
    omega

theorem ValidateBounds_ok_iff (t : Timestamp) :
    t.ValidateBounds = Except.ok () ↔
      (kMinSeconds ≤ t.seconds_ ∧ t.seconds_ ≤ kMaxSeconds ∧
        0 ≤ t.nanoseconds_ ∧ t.nanoseconds_ ≤ 999999999) := by
  unfold Timestamp.ValidateBounds
  constructor
  · intro h
    split_ifs at h with h1 h2
    omega
  · intro h
    rw [if_neg (by omega), if_neg (by omega)]

theorem ValidateBounds_error_iff (t : Timestamp) :
    t.ValidateBounds = Except.error Error.RangeViolation ↔
      (t.seconds_ < kMinSeconds ∨ kMaxSeconds < t.seconds_ ∨
        t.nanoseconds_ < 0 ∨ 999999999 < t.nanoseconds_) := by
  unfold Timestamp.ValidateBounds
  constructor
  · intro h
    split_ifs at h with h1 h2
    · omega
    · omega
  · intro h
    split_ifs with h1 h2
    · rfl
    · rfl
    · omega

theorem create_eq_ok (s ns : Int)
    (h : -62135596800 ≤ s ∧ s ≤ 253402300799 ∧ 0 ≤ ns ∧ ns ≤ 999999999) :
    Timestamp.create s ns = Except.ok ⟨s, ns⟩ := by
  have hpass : Timestamp.ValidateBounds ⟨s, ns⟩ = Except.ok () :=
    (ValidateBounds_ok_iff ⟨s, ns⟩).mpr h
  unfold Timestamp.create
  simp only [hpass]

theorem create_eq_error (s ns : Int)
    (h : s < -62135596800 ∨ 253402300799 < s ∨ ns < 0 ∨ 999999999 < ns) :
    Timestamp.create s ns = Except.error Error.RangeViolation := by
  have hfail : Timestamp.ValidateBounds ⟨s, ns⟩ = Except.error Error.RangeViolation :=
    (ValidateBounds_error_iff ⟨s, ns⟩).mpr h
  unfold Timestamp.create
  simp only [hfail]

theorem tdiv_nanos (n : Int) :
    (0 ≤ n → Int.tdiv n 1000000000 = n / 1000000000) ∧
    (n < 0 → Int.tdiv n 1000000000 = -((-n) / 1000000000)) := by
  constructor
  · intro h
    exact Int.tdiv_eq_ediv h (by decide)
  · intro h
    have hneg := Int.neg_tdiv (-n) 1000000000
    rw [neg_neg] at hneg
    rw [hneg, Int.tdiv_eq_ediv (by omega) (by decide)]

theorem tmod_nanos (n : Int) :
    Int.tmod n 1000000000 = n - Int.tdiv n 1000000000 * 1000000000 := by
  have h := Int.tdiv_add_tmod' n 1000000000
  omega

theorem FromTimePoint_eq_ok (n : Int)
    (hlo : -62135596800 * 1000000000 ≤ n)
    (hhi : n ≤ 253402300799 * 1000000000 + 999999999) :
    Timestamp.FromTimePoint n = Except.ok ⟨n / 1000000000, n % 1000000000⟩ := by
  obtain ⟨h1, h2⟩ := tdiv_nanos n
  unfold Timestamp.FromTimePoint
  simp only [kNanosPerSecond]
  generalize Int.tdiv n 1000000000 = q at h1 h2 ⊢
  have ht : (if n - q * 1000000000 < 0 then
        ({ seconds_ := q - 1, nanoseconds_ := 1000000000 + (n - q * 1000000000) } : Timestamp)
      else { seconds_ := q, nanoseconds_ := n - q * 1000000000 }) =
      ⟨n / 1000000000, n % 1000000000⟩ := by
    split_ifs with h
    · rw [Timestamp.mk.injEq]
      omega
    · rw [Timestamp.mk.injEq]
      omega
  rw [ht]
  have hpass : Timestamp.ValidateBounds ⟨n / 1000000000, n % 1000000000⟩ = Except.ok () := by
    rw [ValidateBounds_ok_iff]
    simp only [kMinSeconds, kMaxSeconds]
    omega
  simp only [hpass]

/-! ## Ordering and equality -/

/-- C1: for every pair of Timestamps exactly one of `A < B`, `A == B`, `A > B`
holds, for the header's `operator<`, `operator==` and `operator>`. -/
theorem trichotomy (A B : Timestamp) :
    (operator_lt A B = true ∧ operator_eq A B = false ∧ operator_gt A B = false) ∨
    (operator_lt A B = false ∧ operator_eq A B = true ∧ operator_gt A B = false) ∨
    (operator_lt A B = false ∧ operator_eq A B = false ∧ operator_gt A B = true) := by
  have hlt := operator_lt_iff A B
  have hgt := operator_lt_iff B A
  have hnlt := operator_lt_eq_false_iff A B
  have hngt := operator_lt_eq_false_iff B A
  have heq := operator_eq_iff_fields A B
  have hneq : operator_eq A B = false ↔
      ¬ (A.seconds = B.seconds ∧ A.nanoseconds = B.nanoseconds) := by
    rw [← heq, Bool.not_eq_true]
  unfold operator_gt
  rw [hlt, hgt, hnlt, hngt, heq, hneq]
  omega

/-- C2: `operator==`, computed as `!(A < B || A > B)`, is true exactly when the
two Timestamps have equal seconds and equal nanoseconds. -/
theorem operator_eq_fieldwise (A B : Timestamp) :
    operator_eq A B = (!(operator_lt A B || operator_gt A B)) ∧
    (operator_eq A B = true ↔
      (A.seconds = B.seconds ∧ A.nanoseconds = B.nanoseconds)) :=
  ⟨rfl, operator_eq_iff_fields A B⟩

/-- C3: Timestamps that compare equal with `operator==` have the same hash, and
the hash is determined by the pair (seconds, nanoseconds) alone. -/
theorem hash_respects_operator_eq (A B : Timestamp) :
    (operator_eq A B = true → hash A = hash B) ∧
    (A.seconds = B.seconds → A.nanoseconds = B.nanoseconds → hash A = hash B) := by
  have key : A.seconds = B.seconds → A.nanoseconds = B.nanoseconds → hash A = hash B := by
    intro hs hn
    unfold hash
    rw [hs, hn]
  refine ⟨?_, key⟩
  intro h
  obtain ⟨hs, hn⟩ := (operator_eq_iff_fields A B).mp h
  exact key hs hn

/-- Witness for C3 at the pair (5, 7), (5, 7). -/
theorem hash_respects_operator_eq_witness :
    operator_eq ⟨5, 7⟩ ⟨5, 7⟩ = true ∧
      hash ⟨5, 7⟩ = hash ⟨5, 7⟩ ∧ hash ⟨5, 7⟩ = 57505 :=
  ⟨by decide, (hash_respects_operator_eq ⟨5, 7⟩ ⟨5, 7⟩).1 (by decide), by decide⟩

/-- C4: `operator<` is the lexicographic order on (seconds, nanoseconds); in
particular smaller seconds decide the comparison whatever the nanoseconds
are, as for (5, 999999999) < (6, 0). -/
theorem operator_lt_lexicographic (A B : Timestamp) :
    (operator_lt A B = true ↔
      (A.seconds < B.seconds ∨
        (A.seconds = B.seconds ∧ A.nanoseconds < B.nanoseconds))) ∧
    (A.seconds < B.seconds → operator_lt A B = true) ∧
    operator_lt ⟨5, 999999999⟩ ⟨6, 0⟩ = true := by
  refine ⟨operator_lt_iff A B, ?_, by decide⟩
  intro h
  exact (operator_lt_iff A B).mpr (Or.inl h)

/-- Witness for C4 at (5, 999999999) and (6, 0). -/
theorem operator_lt_lexicographic_witness :
    Timestamp.seconds ⟨5, 999999999⟩ < Timestamp.seconds ⟨6, 0⟩ ∧
      operator_lt ⟨5, 999999999⟩ ⟨6, 0⟩ = true :=
  ⟨by decide, (operator_lt_lexicographic ⟨5, 999999999⟩ ⟨6, 0⟩).2.1 (by decide)⟩

/-- C5: the derived operators are determined by `operator<`: `A > B` is
`B < A`, `A <= B` is `!(A > B)`, `A >= B` is `!(A < B)` and `A != B` is
`A < B || A > B`. -/
theorem derived_operators (A B : Timestamp) :
    operator_gt A B = operator_lt B A ∧
    operator_le A B = (!(operator_gt A B)) ∧
    operator_ge A B = (!(operator_lt A B)) ∧
    operator_ne A B = (operator_lt A B || operator_gt A B) :=
  ⟨rfl, rfl, rfl, rfl⟩

/-! ## Construction -/

/-- C6: the two-field constructor fails exactly when seconds is outside
[-62135596800, 253402300799] or nanoseconds is outside [0, 999999999]; the
two extreme instants succeed and the three nearest outside values fail. -/
theorem create_fails_iff (s ns : Int) :
    (Timestamp.create s ns = Except.error Error.RangeViolation ↔
      (s < -62135596800 ∨ 253402300799 < s ∨ ns < 0 ∨ 999999999 < ns)) ∧
    ((∃ t, Timestamp.create s ns = Except.ok t) ↔
      ¬ (s < -62135596800 ∨ 253402300799 < s ∨ ns < 0 ∨ 999999999 < ns)) ∧
    Timestamp.create (-62135596800) 0 = Except.ok ⟨-62135596800, 0⟩ ∧
    Timestamp.create 253402300799 999999999 = Except.ok ⟨253402300799, 999999999⟩ ∧
    Timestamp.create (-62135596801) 0 = Except.error Error.RangeViolation ∧
    Timestamp.create 253402300800 0 = Except.error Error.RangeViolation ∧
    Timestamp.create 253402300799 1000000000 = Except.error Error.RangeViolation := by
  refine ⟨?_, ?_, ?_, ?_, ?_, ?_, ?_⟩
  · by_cases hbad : s < -62135596800 ∨ 253402300799 < s ∨ ns < 0 ∨ 999999999 < ns
    · simp only [create_eq_error s ns hbad, hbad]
    · rw [create_eq_ok s ns (by omega)]
      simp only [hbad, iff_false]
      intro h
      cases h
  · by_cases hbad : s < -62135596800 ∨ 253402300799 < s ∨ ns < 0 ∨ 999999999 < ns
    · rw [create_eq_error s ns hbad]
      simp only [hbad, not_true_eq_false, iff_false]
      rintro ⟨t, ht⟩
      cases ht
    · rw [create_eq_ok s ns (by omega)]
      simp only [hbad, not_false_eq_true, iff_true]
      exact ⟨_, rfl⟩
  · exact create_eq_ok _ _ (by decide)
  · exact create_eq_ok _ _ (by decide)
  · exact create_eq_error _ _ (by decide)
  · exact create_eq_error _ _ (by decide)
  · exact create_eq_error _ _ (by decide)

/-- C7: for in-range seconds and nanoseconds the two-field constructor succeeds
and the accessors of the result return the arguments unchanged. -/
theorem create_roundtrip (s ns : Int)
    (hs : -62135596800 ≤ s ∧ s ≤ 253402300799)
    (hns : 0 ≤ ns ∧ ns ≤ 999999999) :
    ∃ t, Timestamp.create s ns = Except.ok t ∧ t.seconds = s ∧ t.nanoseconds = ns :=
  ⟨⟨s, ns⟩, create_eq_ok s ns ⟨hs.1, hs.2, hns.1, hns.2⟩, rfl, rfl⟩

/-- Witness for C7 at (-1, 750000000). -/
theorem create_roundtrip_witness :
    ((-62135596800 : Int) ≤ -1 ∧ (-1 : Int) ≤ 253402300799) ∧
    ((0 : Int) ≤ 750000000 ∧ (750000000 : Int) ≤ 999999999) ∧
    ∃ t, Timestamp.create (-1) 750000000 = Except.ok t ∧
      t.seconds = -1 ∧ t.nanoseconds = 750000000 :=
  ⟨by decide, by decide, create_roundtrip (-1) 750000000 (by decide) (by decide)⟩

/-- C8: the conversion from a time point `n` nanoseconds from the epoch, for an
in-range instant, succeeds with nanoseconds in [0, 999999999] and
`seconds * 1000000000 + nanoseconds = n`, so seconds is the floor of
`n / 10^9`; when truncation toward zero leaves a negative remainder, seconds
is one less than the truncated quotient.  For `n = -250000000` the result is
(-1, 750000000). -/
theorem FromTimePoint_normalises (n : Int)
    (hlo : -62135596800 * 1000000000 ≤ n)
    (hhi : n ≤ 253402300799 * 1000000000 + 999999999) :
    (∃ t, Timestamp.FromTimePoint n = Except.ok t ∧
      0 ≤ t.nanoseconds ∧ t.nanoseconds ≤ 999999999 ∧
      t.seconds * 1000000000 + t.nanoseconds = n ∧
      t.seconds = Int.fdiv n 1000000000 ∧
      (Int.tmod n 1000000000 < 0 → t.seconds = Int.tdiv n 1000000000 - 1) ∧
      (0 ≤ Int.tmod n 1000000000 → t.seconds = Int.tdiv n 1000000000)) ∧
    Timestamp.FromTimePoint (-250000000) = Except.ok ⟨-1, 750000000⟩ := by
  obtain ⟨h1, h2⟩ := tdiv_nanos n
  have hmod := tmod_nanos n
  refine ⟨⟨⟨n / 1000000000, n % 1000000000⟩, FromTimePoint_eq_ok n hlo hhi, ?_, ?_, ?_, ?_, ?_, ?_⟩,
    FromTimePoint_eq_ok (-250000000) (by decide) (by decide)⟩
  · show 0 ≤ n % 1000000000
    omega
  · show n % 1000000000 ≤ 999999999
    omega
  · show n / 1000000000 * 1000000000 + n % 1000000000 = n
    omega
  · show n / 1000000000 = Int.fdiv n 1000000000
    exact (Int.fdiv_eq_ediv n (by decide)).symm
  · show Int.tmod n 1000000000 < 0 → n / 1000000000 = Int.tdiv n 1000000000 - 1
    intro hneg
    omega
  · show 0 ≤ Int.tmod n 1000000000 → n / 1000000000 = Int.tdiv n 1000000000
    intro hpos
    omega

/-- Witness for C8 at a quarter of a second before the epoch. -/
theorem FromTimePoint_normalises_witness :
    (-62135596800 * 1000000000 : Int) ≤ -250000000 ∧
    (-250000000 : Int) ≤ 253402300799 * 1000000000 + 999999999 ∧
    Int.tmod (-250000000) 1000000000 < 0 ∧
    Int.tdiv (-250000000) 1000000000 = 0 ∧
    ∃ t, Timestamp.FromTimePoint (-250000000) = Except.ok t ∧
      0 ≤ t.nanoseconds ∧ t.nanoseconds ≤ 999999999 ∧
      t.seconds * 1000000000 + t.nanoseconds = -250000000 ∧
      t.seconds = Int.fdiv (-250000000) 1000000000 ∧
      (Int.tmod (-250000000) 1000000000 < 0 →
        t.seconds = Int.tdiv (-250000000) 1000000000 - 1) ∧
      (0 ≤ Int.tmod (-250000000) 1000000000 →
        t.seconds = Int.tdiv (-250000000) 1000000000) :=
  ⟨by decide, by decide, by decide, by decide,
    (FromTimePoint_normalises (-250000000) (by decide) (by decide)).1⟩

/-- C9: the default-constructed Timestamp is the epoch: seconds 0, nanoseconds
0, within the bounds, and `==` to the Timestamp built from (0, 0). -/
theorem create_default_is_epoch :
    Timestamp.create_default.seconds = 0 ∧
    Timestamp.create_default.nanoseconds = 0 ∧
    Timestamp.create_default.ValidateBounds = Except.ok () ∧
    ∃ t, Timestamp.create 0 0 = Except.ok t ∧
      operator_eq Timestamp.create_default t = true :=
  ⟨rfl, rfl, (ValidateBounds_ok_iff _).mpr (by decide),
    ⟨0, 0⟩, create_eq_ok 0 0 (by decide), by decide⟩

/-- C10: `FromTime s` is the two-field constructor at `(s, 0)`: for in-range
`s` it succeeds with seconds `s` and nanoseconds 0, and for `s` outside the
range both fail with `RangeViolation`. -/
theorem FromTime_eq_create (s : Int) :
    Timestamp.FromTime s = Timestamp.create s 0 ∧
    ((-62135596800 ≤ s ∧ s ≤ 253402300799) →
      ∃ t, Timestamp.FromTime s = Except.ok t ∧ Timestamp.create s 0 = Except.ok t ∧
        t.seconds = s ∧ t.nanoseconds = 0) ∧
    ((s < -62135596800 ∨ 253402300799 < s) →
      Timestamp.FromTime s = Except.error Error.RangeViolation ∧
      Timestamp.create s 0 = Except.error Error.RangeViolation) := by
  have heq : Timestamp.FromTime s = Timestamp.create s 0 := rfl
  refine ⟨heq, ?_, ?_⟩
  · intro h
    have hc := create_eq_ok s 0 ⟨h.1, h.2, by decide, by decide⟩
    exact ⟨⟨s, 0⟩, heq.trans hc, hc, rfl, rfl⟩
  · intro h
    have hc := create_eq_error s 0 (by omega)
    exact ⟨heq.trans hc, hc⟩

/-- Witness for C10 at `s = 1500000000` (in range) and `s = 253402300800`
(just past the upper bound). -/
theorem FromTime_eq_create_witness :
    ((-62135596800 : Int) ≤ 1500000000 ∧ (1500000000 : Int) ≤ 253402300799) ∧
    (∃ t, Timestamp.FromTime 1500000000 = Except.ok t ∧
      Timestamp.create 1500000000 0 = Except.ok t ∧
      t.seconds = 1500000000 ∧ t.nanoseconds = 0) ∧
    ((253402300800 : Int) < -62135596800 ∨ (253402300799 : Int) < 253402300800) ∧
    (Timestamp.FromTime 253402300800 = Except.error Error.RangeViolation ∧
      Timestamp.create 253402300800 0 = Except.error Error.RangeViolation) :=
  ⟨by decide, (FromTime_eq_create 1500000000).2.1 (by decide), by decide,
    (FromTime_eq_create 253402300800).2.2 (by decide)⟩

/-! ## Order properties -/

/-- C11: `operator<` is a strict order: no Timestamp is less than itself, and
`A < B` with `B < C` gives `A < C`. -/
theorem operator_lt_strict_order (A B C : Timestamp) :
    operator_lt A A = false ∧
    (operator_lt A B = true → operator_lt B C = true → operator_lt A C = true) := by
  constructor
  · rw [operator_lt_eq_false_iff]
    omega
  · intro hab hbc
    rw [operator_lt_iff] at hab hbc ⊢
    omega

/-- Witness for C11 on the chain (1, 0) < (1, 5) < (2, 0). -/
theorem operator_lt_strict_order_witness :
    operator_lt ⟨1, 0⟩ ⟨1, 5⟩ = true ∧ operator_lt ⟨1, 5⟩ ⟨2, 0⟩ = true ∧
      operator_lt ⟨1, 0⟩ ⟨2, 0⟩ = true ∧ operator_lt ⟨1, 0⟩ ⟨1, 0⟩ = false :=
  ⟨by decide, by decide,
    (operator_lt_strict_order ⟨1, 0⟩ ⟨1, 5⟩ ⟨2, 0⟩).2 (by decide) (by decide),
    (operator_lt_strict_order ⟨1, 0⟩ ⟨1, 5⟩ ⟨2, 0⟩).1⟩

/-- C13: when both nanoseconds values lie in [0, 999999999], `A < B` holds
exactly when the instant of `A` in nanoseconds since the epoch,
`seconds * 1000000000 + nanoseconds`, is smaller than that of `B`. -/
theorem operator_lt_chronological (A B : Timestamp)
    (hA : 0 ≤ A.nanoseconds ∧ A.nanoseconds ≤ 999999999)
    (hB : 0 ≤ B.nanoseconds ∧ B.nanoseconds ≤ 999999999) :
    operator_lt A B = true ↔
      A.seconds * 1000000000 + A.nanoseconds < B.seconds * 1000000000 + B.nanoseconds := by
  rw [operator_lt_iff]
  constructor
  · intro h
    omega
  · intro h
    omega

/-- Witness for C13 with negative seconds: (-2, 999999999) against
(-1, 0). -/
theorem operator_lt_chronological_witness :
    (0 ≤ Timestamp.nanoseconds ⟨-2, 999999999⟩ ∧
      Timestamp.nanoseconds ⟨-2, 999999999⟩ ≤ 999999999) ∧
    (0 ≤ Timestamp.nanoseconds ⟨-1, 0⟩ ∧ Timestamp.nanoseconds ⟨-1, 0⟩ ≤ 999999999) ∧
    operator_lt ⟨-2, 999999999⟩ ⟨-1, 0⟩ = true ∧
    (operator_lt ⟨-2, 999999999⟩ ⟨-1, 0⟩ = true ↔
      Timestamp.seconds ⟨-2, 999999999⟩ * 1000000000 + Timestamp.nanoseconds ⟨-2, 999999999⟩ <
        Timestamp.seconds ⟨-1, 0⟩ * 1000000000 + Timestamp.nanoseconds ⟨-1, 0⟩) :=
  ⟨by decide, by decide, by decide,
    operator_lt_chronological ⟨-2, 999999999⟩ ⟨-1, 0⟩ (by decide) (by decide)⟩

/-- C14: `<=` is `<` or `==`, `>=` is `>` or `==`, and `A <= B` together with
`B <= A` gives `A == B`. -/
theorem nonstrict_operators (A B : Timestamp) :
    (operator_le A B = true ↔ (operator_lt A B = true ∨ operator_eq A B = true)) ∧
    (operator_ge A B = true ↔ (operator_gt A B = true ∨ operator_eq A B = true)) ∧
    (operator_le A B = true → operator_le B A = true → operator_eq A B = true) := by
  have hle : ∀ X Y : Timestamp, operator_le X Y = true ↔
      (X.seconds < Y.seconds ∨ (X.seconds = Y.seconds ∧ X.nanoseconds ≤ Y.nanoseconds)) := by
    intro X Y
    unfold operator_le operator_gt
    rw [Bool.not_eq_true', operator_lt_eq_false_iff]
    omega
  have hge : operator_ge A B = true ↔
      (B.seconds < A.seconds ∨ (A.seconds = B.seconds ∧ B.nanoseconds ≤ A.nanoseconds)) := by
    unfold operator_ge
    rw [Bool.not_eq_true', operator_lt_eq_false_iff]
  refine ⟨?_, ?_, ?_⟩
  · rw [hle, operator_lt_iff, operator_eq_iff_fields]
    omega
  · unfold operator_gt
    rw [hge, operator_lt_iff, operator_eq_iff_fields]
    omega
  · intro hab hba
    rw [hle] at hab hba
    rw [operator_eq_iff_fields]
    omega

/-- Witness for C14 at two copies of (3, 4). -/
theorem nonstrict_operators_witness :
    operator_le ⟨3, 4⟩ ⟨3, 4⟩ = true ∧ operator_le ⟨3, 4⟩ ⟨3, 4⟩ = true ∧
      operator_eq ⟨3, 4⟩ ⟨3, 4⟩ = true :=
  ⟨by decide, by decide,
    (nonstrict_operators ⟨3, 4⟩ ⟨3, 4⟩).2.2 (by decide) (by decide)⟩

/-! ## Hash -/

theorem shiftRight_32 (m : Int) : m >>> (32 : Int) = m / 4294967296 := by
  have h : m >>> (32 : Int) = m >>> (32 : Nat) := by
    cases m with
    | ofNat k => exact Int.shiftRight_coe_nat k 32
    | negSucc k => exact Int.shiftRight_negSucc k 32
  rw [h, Int.shiftRight_eq_div_pow]
  norm_num

theorem toInt32_spec (x : Int) :
    isInt32 (toInt32 x) ∧ (toInt32 x - x) % 4294967296 = 0 := by
  unfold isInt32 toInt32
  omega

theorem toInt32_eq_self_iff (x : Int) : toInt32 x = x ↔ isInt32 x := by
  unfold isInt32 toInt32
  omega

theorem hash_eq_horner (t : Timestamp) :
    hash t = toSizeT (toInt32
      (50653 + 1369 * toInt32 t.seconds + 37 * toInt32 (t.seconds >>> 32) + t.nanoseconds)) := by
  unfold hash consume toInt32
  simp only []
  congr 1
  omega

/-- C12: the hash is the Horner accumulation with multiplier 37 over lo (the
low 32 bits of seconds read as int32), hi (seconds >> 32 read as int32) and
nanoseconds: the accumulator ends as
`((37 * 1 + lo) * 37 + hi) * 37 + nanoseconds = 50653 + 1369 * lo + 37 * hi + nanoseconds`
reduced modulo 2^32 into the int32 range, and the result is that value
converted to `size_t`. -/
theorem hash_is_horner (t : Timestamp) :
    t.seconds = (t.seconds >>> 32) * 4294967296 + toInt32 t.seconds % 4294967296 ∧
    t.seconds >>> 32 = t.seconds / 4294967296 ∧
    (-9223372036854775808 ≤ t.seconds ∧ t.seconds ≤ 9223372036854775807 →
      toInt32 (t.seconds >>> 32) = t.seconds >>> 32) ∧
    ((37 * 1 + toInt32 t.seconds) * 37 + toInt32 (t.seconds >>> 32)) * 37 + t.nanoseconds =
      50653 + 1369 * toInt32 t.seconds + 37 * toInt32 (t.seconds >>> 32) + t.nanoseconds ∧
    hash t = toSizeT (toInt32
      (50653 + 1369 * toInt32 t.seconds + 37 * toInt32 (t.seconds >>> 32) + t.nanoseconds)) ∧
    isInt32 (toInt32
      (50653 + 1369 * toInt32 t.seconds + 37 * toInt32 (t.seconds >>> 32) + t.nanoseconds)) ∧
    (toInt32
      (50653 + 1369 * toInt32 t.seconds + 37 * toInt32 (t.seconds >>> 32) + t.nanoseconds) -
      (50653 + 1369 * toInt32 t.seconds + 37 * toInt32 (t.seconds >>> 32) + t.nanoseconds)) %
        4294967296 = 0 := by
  have hshift : t.seconds >>> 32 = t.seconds / 4294967296 := shiftRight_32 t.seconds
  refine ⟨?_, hshift, ?_, by ring, hash_eq_horner t, (toInt32_spec _).1, (toInt32_spec _).2⟩
  · rw [hshift]
    unfold toInt32
    omega
  · intro h
    rw [hshift, toInt32_eq_self_iff]
    unfold isInt32
    omega

/-- Witness for C12 at seconds = -1 (all 64 bits set), nanoseconds = 5. -/
theorem hash_is_horner_witness :
    ((-9223372036854775808 : Int) ≤ Timestamp.seconds ⟨-1, 5⟩ ∧
      Timestamp.seconds ⟨-1, 5⟩ ≤ 9223372036854775807) ∧
    toInt32 (Timestamp.seconds ⟨-1, 5⟩ >>> 32) = Timestamp.seconds ⟨-1, 5⟩ >>> 32 ∧
    toInt32 (Timestamp.seconds ⟨-1, 5⟩) = -1 ∧
    Timestamp.seconds ⟨-1, 5⟩ >>> 32 = -1 ∧
    hash ⟨-1, 5⟩ = 49252 :=
  ⟨by decide, (hash_is_horner ⟨-1, 5⟩).2.2.1 (by decide), by decide, by decide, by decide⟩

/-- C15: the accumulation relies on 32 bit wraparound for in-range input: for
seconds = 2147483647 and nanoseconds = 0, inside the documented bounds, the
exact value of `37 * result + value` at the first `consume` call is
2147483684, outside the `int32_t` range, so the value stored in the
accumulator differs from it. -/
theorem hash_step_exceeds_int32 :
    (-62135596800 ≤ Timestamp.seconds ⟨2147483647, 0⟩ ∧
      Timestamp.seconds ⟨2147483647, 0⟩ ≤ 253402300799 ∧
      0 ≤ Timestamp.nanoseconds ⟨2147483647, 0⟩ ∧
      Timestamp.nanoseconds ⟨2147483647, 0⟩ ≤ 999999999) ∧
    hash_exact_steps ⟨2147483647, 0⟩ = [2147483684, -79456893644, -79456845692] ∧
    (∃ v ∈ hash_exact_steps ⟨2147483647, 0⟩, v < -2147483648 ∨ 2147483647 < v) ∧
    consume_exact 1 (toInt32 2147483647) = 37 * 1 + 2147483647 ∧
    consume 1 (toInt32 2147483647) ≠ consume_exact 1 (toInt32 2147483647) ∧
    (∀ result value : Int, consume result value = toInt32 (consume_exact result value)) ∧
    (∀ x : Int, toInt32 x = x ↔ (-2147483648 ≤ x ∧ x ≤ 2147483647)) := by
  refine ⟨by decide, by decide, ⟨2147483684, by decide, by decide⟩, by decide, by decide,
    fun _ _ => rfl, toInt32_eq_self_iff⟩

/-- C16: two Timestamps with the same seconds and different nanoseconds (both
`int32_t` values) have different hashes, the accumulator being int32
arithmetic modulo 2^32 and the result converted to `size_t`. -/
theorem hash_separates_nanoseconds (A B : Timestamp)
    (hA : isInt32 A.nanoseconds) (hB : isInt32 B.nanoseconds)
    (hs : A.seconds = B.seconds) (hn : A.nanoseconds ≠ B.nanoseconds) :
    hash A ≠ hash B := by
  intro h
  rw [hash_eq_horner, hash_eq_horner, hs] at h
  generalize 50653 + 1369 * toInt32 B.seconds + 37 * toInt32 (B.seconds >>> 32) = c at h
  unfold isInt32 at hA hB
  unfold toSizeT toInt32 at h
  omega

/-- Witness for C16 at (5, 0) and (5, 1). -/
theorem hash_separates_nanoseconds_witness :
    isInt32 (Timestamp.nanoseconds ⟨5, 0⟩) ∧ isInt32 (Timestamp.nanoseconds ⟨5, 1⟩) ∧
    Timestamp.seconds ⟨5, 0⟩ = Timestamp.seconds ⟨5, 1⟩ ∧
    Timestamp.nanoseconds ⟨5, 0⟩ ≠ Timestamp.nanoseconds ⟨5, 1⟩ ∧
    hash ⟨5, 0⟩ ≠ hash ⟨5, 1⟩ :=
  ⟨by decide, by decide, by decide, by decide,
    hash_separates_nanoseconds ⟨5, 0⟩ ⟨5, 1⟩ (by decide) (by decide) (by decide) (by decide)⟩

end firebase
